import Mathlib

/-!
Verification of the Horizon Finance loan-chatbot backend.

The Python backend is embedded shallowly: machine floats become exact
rationals (`ℚ`), Python `round(x, 2)` becomes `round2`, `Optional` values
become `Option`, and Python truthiness (`not x`) is made explicit through
the `truthyQ` / `truthyI` / `truthyS` helpers.  Randomness (the credit
score draw), LLM extraction output and PDF generation success are passed
in explicitly as oracle inputs, mirroring the call sites that consume
them.
-/

/-- Python `round(x, 2)`: round to two decimal places.  (Modelled as
round-half-up on exact rationals; none of the verified inputs sits on a
tie, where CPython resolves by the binary float representation.) -/
def round2 (x : ℚ) : ℚ :=
  (Int.floor (x * 100 + 1 / 2) : ℚ) / 100

/-- Python truthiness of an optional float: `None` and `0.0` are falsy. -/
def truthyQ : Option ℚ → Bool
  | none => false
  | some x => decide (x ≠ 0)

/-- Python truthiness of an optional int: `None` and `0` are falsy. -/
def truthyI : Option Int → Bool
  | none => false
  | some x => decide (x ≠ 0)

/-- Python truthiness of an optional string: `None` and `""` are falsy. -/
def truthyS : Option String → Bool
  | none => false
  | some s => decide (s ≠ "")

/-- `x or d` on an optional Python string: the default replaces falsy values. -/
def orDefault (o : Option String) (d : String) : String :=
  if truthyS o then o.getD d else d

namespace LoanCalculator

/-- `LoanCalculator.calculate_emi` from `backend/utils/loan_calculator.py`:
guard on non-positive inputs, else the standard amortized-EMI formula with
monthly rate `annual_rate / 1200`, rounded to 2 decimals. -/
def calculate_emi (principal annual_rate : ℚ) (tenure_months : Int) : ℚ :=
  if principal ≤ 0 ∨ annual_rate ≤ 0 ∨ tenure_months ≤ 0 then 0
  else
    let monthly_rate := annual_rate / (12 * 100)
    round2 (principal * monthly_rate * (1 + monthly_rate) ^ tenure_months.toNat /
      ((1 + monthly_rate) ^ tenure_months.toNat - 1))

/-- `LoanCalculator.calculate_dti_ratio`: 100 on non-positive salary, else
`round((emi / salary) * 100, 2)`. -/
def calculate_dti_ratio (emi monthly_salary : ℚ) : ℚ :=
  if monthly_salary ≤ 0 then 100
  else round2 (emi / monthly_salary * 100)

/-- `LoanCalculator.suggest_interest_rate`: rate tier by credit score. -/
def suggest_interest_rate (credit_score : Int) : ℚ :=
  if credit_score ≥ 800 then 21 / 2
  else if credit_score ≥ 750 then 11
  else if credit_score ≥ 700 then 12
  else if credit_score ≥ 650 then 14
  else 16

end LoanCalculator

/-- The distinct `reason` message templates produced by
`UnderwritingAgent.evaluate` (the interpolated numbers are carried by the
other result fields). -/
inductive UwReason
  | missingLoanDetails
  | missingCreditInfo
  | lowCreditScore
  | withinPreApprovedLimit
  | exceedsMaxLimit
  | salaryVerificationRequired
  | dtiAcceptable
  | dtiTooHigh
deriving DecidableEq, Repr

/-- Result dictionary of `UnderwritingAgent.evaluate`; keys that are absent
in some branches are `Option`s (the `suggestion` key is tracked as a flag). -/
structure UwResult where
  decision : String
  reason : UwReason
  emi : Option ℚ
  requires_salary : Bool
  required_min_salary : Option ℚ
  dti_ratio : Option ℚ
  hasSuggestion : Bool
deriving DecidableEq, Repr

namespace UnderwritingAgent

def MIN_CREDIT_SCORE : Int := 700

def MAX_DTI : ℚ := 50

def MAX_MULTIPLIER : ℚ := 2

/-- `UnderwritingAgent._calculate_min_required_salary`. -/
def calculate_min_required_salary (emi : ℚ) : ℚ :=
  round2 (emi / (MAX_DTI / 100))

/-- `UnderwritingAgent.evaluate` from
`backend/agents/underwriting_agent.py`, branch for branch. -/
def evaluate (loan_amount : Option ℚ) (tenure_months : Option Int)
    (interest_rate : Option ℚ) (credit_score : Option Int)
    (pre_approved_limit : Option ℚ) (salary : Option ℚ) : UwResult :=
  if !truthyQ loan_amount || !truthyI tenure_months || !truthyQ interest_rate then
    ⟨"pending", .missingLoanDetails, none, false, none, none, false⟩
  else if !truthyI credit_score || !truthyQ pre_approved_limit then
    ⟨"pending", .missingCreditInfo, none, false, none, none, false⟩
  else
    let la := loan_amount.getD 0
    let tm := tenure_months.getD 0
    let ir := interest_rate.getD 0
    let cs := credit_score.getD 0
    let pal := pre_approved_limit.getD 0
    if cs < MIN_CREDIT_SCORE then
      ⟨"rejected", .lowCreditScore, none, false, none, none, false⟩
    else
      let emi := LoanCalculator.calculate_emi la ir tm
      if la ≤ pal then
        ⟨"approved", .withinPreApprovedLimit, some emi, false, none, none, false⟩
      else
        let max_allowed := pal * MAX_MULTIPLIER
        if la > max_allowed then
          ⟨"rejected", .exceedsMaxLimit, none, false, none, none, false⟩
        else
          match salary with
          | none =>
            let required_salary := calculate_min_required_salary emi
            ⟨"pending", .salaryVerificationRequired, some emi, true,
              some required_salary, none, false⟩
          | some sal =>
            let dti := LoanCalculator.calculate_dti_ratio emi sal
            if dti ≤ MAX_DTI then
              ⟨"approved", .dtiAcceptable, some emi, false, none, some dti, false⟩
            else
              ⟨"rejected", .dtiTooHigh, some emi, false, none, some dti, true⟩

end UnderwritingAgent

/-- One record of `VerificationAgent.MOCK_CUSTOMER_DATABASE`. -/
structure CustomerRecord where
  name : String
  address_verified : Bool
  phone_verified : Bool
  credit_score : Int
  pre_approved_limit : ℚ
deriving DecidableEq, Repr

/-- Result dictionary of `VerificationAgent.verify_customer`. -/
structure VerifyResult where
  success : Bool
  phone_verified : Bool
  address_verified : Bool
  credit_score : Int
  pre_approved_limit : ℚ
  customer_name : String
deriving DecidableEq, Repr

namespace VerificationAgent

/-- `VerificationAgent.MOCK_CUSTOMER_DATABASE`, keyed by phone number. -/
def MOCK_CUSTOMER_DATABASE : List (String × CustomerRecord) :=
  [("9876543210", ⟨"Rahul Sharma", true, true, 750, 300000⟩),
   ("9876543211", ⟨"Priya Patel", true, true, 680, 200000⟩),
   ("9876543212", ⟨"Amit Kumar", true, true, 820, 500000⟩),
   ("9876543213", ⟨"Sneha Gupta", true, true, 720, 350000⟩),
   ("9876543214", ⟨"Vikram Singh", true, true, 650, 150000⟩)]

def DEMO_PHONE_NUMBER : String := "7982130057"

/-- Dictionary lookup `phone_number in MOCK_CUSTOMER_DATABASE`. -/
def lookupDb (phone : String) : Option CustomerRecord :=
  (MOCK_CUSTOMER_DATABASE.find? (fun kv => kv.1 == phone)).map (fun kv => kv.2)

/-- `VerificationAgent._calculate_pre_approved_limit`: limit tier by score. -/
def calculate_pre_approved_limit (credit_score : Int) : ℚ :=
  if credit_score ≥ 800 then 500000
  else if credit_score ≥ 750 then 400000
  else if credit_score ≥ 700 then 300000
  else if credit_score ≥ 650 then 200000
  else 100000

/-- `VerificationAgent.verify_customer`.  `randScore` is the value the code
draws with `random.randint(0, 900)` when synthesizing a new profile. -/
def verify_customer (phone : Option String) (customer_name : Option String)
    (randScore : Int) : VerifyResult :=
  let phone_number := if !truthyS phone then "0000000000" else phone.getD "0000000000"
  if phone_number = DEMO_PHONE_NUMBER then
    ⟨true, true, true, 800, 1000000, orDefault customer_name "Demo Customer"⟩
  else
    match lookupDb phone_number with
    | some customer =>
      ⟨true, customer.phone_verified, customer.address_verified,
        customer.credit_score, customer.pre_approved_limit, customer.name⟩
    | none =>
      ⟨true, true, true, randScore, calculate_pre_approved_limit randScore,
        orDefault customer_name "Valued Customer"⟩

end VerificationAgent

/-- `ConversationStage` enum from `backend/utils/state_manager.py`. -/
inductive ConversationStage
  | greeting
  | collecting_info
  | kyc_verification
  | underwriting
  | salary_collection
  | decision
  | sanction_letter
  | completed
deriving DecidableEq, Repr

/-- `UnderwritingStatus` enum from `backend/utils/state_manager.py`. -/
inductive UnderwritingStatus
  | pending
  | requires_salary
  | approved
  | rejected
deriving DecidableEq, Repr

/-- Provenance-tagged outward message of one handler (the literal text of
LLM-generated replies is immaterial to the orchestration and is collapsed
into `natural`; the fixed templates keep their own constructors). -/
inductive MsgOut
  | natural
  | combined (kycPart uwPart : MsgOut)
  | approval
  | rejection (reason : UwReason)
  | sanctionLetterError
  | processingFallback
  | staticProcessed
deriving DecidableEq, Repr

/-- One entry of `conversation_history`. -/
inductive ChatEntry
  | user (text : String)
  | assistant (m : MsgOut)
deriving DecidableEq, Repr

/-- `LoanApplicationState` dataclass from `backend/utils/state_manager.py`
(the `rejection_reason` text is tracked by its template tag). -/
structure LoanApplicationState where
  session_id : String
  customer_name : Option String
  phone_number : Option String
  loan_amount : Option ℚ
  tenure_months : Option Int
  interest_rate : Option ℚ
  credit_score : Option Int
  salary : Option ℚ
  emi : Option ℚ
  pre_approved_limit : Option ℚ
  kyc_verified : Bool
  phone_verified : Bool
  address_verified : Bool
  underwriting_status : UnderwritingStatus
  final_decision : Option String
  rejection_reason : Option UwReason
  conversation_stage : ConversationStage
  conversation_history : List ChatEntry
  sanction_letter_path : Option String
deriving DecidableEq, Repr

/-- A fresh `LoanApplicationState()` as built by `StateManager.create_session`
(field defaults of the dataclass; `sid` stands for the generated uuid4). -/
def initState (sid : String) : LoanApplicationState :=
  ⟨sid, none, none, none, none, none, none, none, none, none,
   false, false, false, .pending, none, none, .greeting, [], none⟩

/-- `LoanApplicationState.add_message`. -/
def addMessage (s : LoanApplicationState) (e : ChatEntry) : LoanApplicationState :=
  { s with conversation_history := s.conversation_history ++ [e] }

/-- The `data` dictionary returned by
`SalesAgent.extract_loan_requirements` (an LLM call: its outcome is an
oracle input of each orchestration step). -/
structure Extraction where
  success : Bool
  customer_name : Option String
  phone_number : Option String
  loan_amount : Option ℚ
  tenure_months : Option Int
  interest_rate : Option ℚ
  salary : Option ℚ
deriving DecidableEq, Repr

/-- Per-message oracle: the LLM extraction result, the random credit-score
draw consumed on a new-profile KYC, whether PDF generation succeeds, and
the result of `float(cleaned)` on the digit-stripped user message in the
salary-collection stage (`none` when `cleaned` is empty or unparsable). -/
structure Oracle where
  extraction : Extraction
  randScore : Int
  sanctionOk : Bool
  salaryParsed : Option ℚ
deriving DecidableEq, Repr

/-- Handler response dictionary (message, actions, download keys). -/
structure Response where
  message : MsgOut
  actions : List String
  download_available : Bool
  download_path : Option String
deriving DecidableEq, Repr

/-- Result of `SanctionAgent.generate_sanction_letter`: parameter check,
then PDF generation whose success is the oracle bit. -/
structure SanctionResult where
  success : Bool
  file_path : Option String
deriving DecidableEq, Repr

namespace SanctionAgent

/-- `SanctionAgent.generate_sanction_letter`: fails when any argument is
falsy (`not all([...])`), else succeeds iff the PDF generator does not
raise (`ok`); the produced path is abstracted from the session id. -/
def generate_sanction_letter (customer_name : String) (loan_amount : Option ℚ)
    (tenure_months : Option Int) (interest_rate : Option ℚ) (emi : Option ℚ)
    (session_id : String) (ok : Bool) : SanctionResult :=
  if !(decide (customer_name ≠ "") && truthyQ loan_amount && truthyI tenure_months &&
      truthyQ interest_rate && truthyQ emi && decide (session_id ≠ "")) then
    ⟨false, none⟩
  else if ok then
    ⟨true, some ("generated_letters/sanction_letter_" ++ session_id ++ ".pdf")⟩
  else
    ⟨false, none⟩

end SanctionAgent

namespace MasterAgent

/-- State update block of `MasterAgent._handle_info_collection`: each
truthy extracted field overwrites the session state. -/
def applyExtraction (s : LoanApplicationState) (e : Extraction) : LoanApplicationState :=
  if e.success then
    let s1 := if truthyS e.customer_name then { s with customer_name := e.customer_name } else s
    let s2 := if truthyS e.phone_number then { s1 with phone_number := e.phone_number } else s1
    let s3 := if truthyQ e.loan_amount then { s2 with loan_amount := e.loan_amount } else s2
    let s4 := if truthyI e.tenure_months then { s3 with tenure_months := e.tenure_months } else s3
    let s5 := if truthyQ e.interest_rate then { s4 with interest_rate := e.interest_rate } else s4
    if truthyQ e.salary then { s5 with salary := e.salary } else s5
  else s

/-- `MasterAgent._get_missing_required_fields`. -/
def get_missing_required_fields (s : LoanApplicationState) : List String :=
  (if !truthyS s.customer_name then ["customer name"] else []) ++
  (if !truthyS s.phone_number then ["phone number"] else []) ++
  (if !truthyQ s.loan_amount then ["loan amount"] else []) ++
  (if !truthyI s.tenure_months then ["loan tenure"] else [])

/-- `MasterAgent._handle_sanction_letter`. -/
def handle_sanction_letter (s : LoanApplicationState) (o : Oracle) :
    LoanApplicationState × Response :=
  let result := SanctionAgent.generate_sanction_letter
    (orDefault s.customer_name "Valued Customer") s.loan_amount s.tenure_months
    s.interest_rate s.emi s.session_id o.sanctionOk
  if result.success then
    let s1 := { s with sanction_letter_path := result.file_path,
                       conversation_stage := .completed }
    (s1, ⟨.approval, ["application_approved", "sanction_letter_generated"],
      true, some ("/api/download/" ++ s1.session_id)⟩)
  else
    (s, ⟨.sanctionLetterError, ["sanction_letter_error"], false, none⟩)

/-- `MasterAgent._handle_underwriting`. -/
def handle_underwriting (s : LoanApplicationState) (o : Oracle) :
    LoanApplicationState × Response :=
  let result := UnderwritingAgent.evaluate s.loan_amount s.tenure_months
    s.interest_rate s.credit_score s.pre_approved_limit s.salary
  if result.decision = "approved" then
    let s1 := { s with underwriting_status := .approved,
                       final_decision := some "approved",
                       emi := result.emi,
                       conversation_stage := .sanction_letter }
    handle_sanction_letter s1 o
  else if result.decision = "rejected" then
    let s1 := { s with underwriting_status := .rejected,
                       final_decision := some "rejected",
                       rejection_reason := some result.reason,
                       conversation_stage := .completed }
    (s1, ⟨.rejection result.reason, ["application_rejected"], false, none⟩)
  else if result.decision = "pending" then
    let s1 := { s with underwriting_status := .requires_salary,
                       emi := result.emi,
                       conversation_stage := .salary_collection }
    (s1, ⟨.natural, ["salary_required"], false, none⟩)
  else
    (s, ⟨.processingFallback, [], false, none⟩)

/-- `MasterAgent._handle_kyc`: store the verification outcome, default the
interest rate from the credit score, then always chain into underwriting;
low score or rejection suppresses the upbeat KYC narration. -/
def handle_kyc (s : LoanApplicationState) (o : Oracle) :
    LoanApplicationState × Response :=
  let v := VerificationAgent.verify_customer s.phone_number s.customer_name o.randScore
  let s1 := { s with kyc_verified := v.success,
                     phone_verified := v.phone_verified,
                     address_verified := v.address_verified,
                     credit_score := some v.credit_score,
                     pre_approved_limit := some v.pre_approved_limit }
  let s2 := if !truthyQ s1.interest_rate then
      { s1 with interest_rate := some (LoanCalculator.suggest_interest_rate v.credit_score) }
    else s1
  let s3 := { s2 with conversation_stage := .underwriting }
  let credit_score_too_low := (s3.credit_score.getD 0) < 700
  let su := handle_underwriting s3 o
  if credit_score_too_low || su.2.actions == ["application_rejected"] then
    (su.1, ⟨su.2.message, su.2.actions, false, none⟩)
  else
    (su.1, ⟨.combined .natural su.2.message, su.2.actions,
      su.2.download_available, su.2.download_path⟩)

/-- `MasterAgent._handle_info_collection`: absorb the extraction, then
either chain into KYC (nothing missing) or re-prompt. -/
def handle_info_collection (s : LoanApplicationState) (o : Oracle) :
    LoanApplicationState × Response :=
  let s1 := applyExtraction s o.extraction
  if (get_missing_required_fields s1).isEmpty then
    handle_kyc { s1 with conversation_stage := .kyc_verification } o
  else
    (s1, ⟨.natural, ["collecting_info"], false, none⟩)

/-- `MasterAgent._handle_greeting`. -/
def handle_greeting (s : LoanApplicationState) (_o : Oracle) :
    LoanApplicationState × Response :=
  ({ s with conversation_stage := .collecting_info },
   ⟨.natural, ["greeting_complete"], false, none⟩)

/-- `MasterAgent._handle_salary_collection`: an extracted or digit-parsed
salary re-enters underwriting, otherwise re-prompt. -/
def handle_salary_collection (s : LoanApplicationState) (o : Oracle) :
    LoanApplicationState × Response :=
  if o.extraction.success && truthyQ o.extraction.salary then
    handle_underwriting { s with salary := o.extraction.salary,
                                 conversation_stage := .underwriting } o
  else
    match o.salaryParsed with
    | some v =>
      handle_underwriting { s with salary := some v,
                                   conversation_stage := .underwriting } o
    | none => (s, ⟨.natural, ["awaiting_salary"], false, none⟩)

/-- `MasterAgent._handle_decision`. -/
def handle_decision (s : LoanApplicationState) (_o : Oracle) :
    LoanApplicationState × Response :=
  (s, ⟨.staticProcessed, [], false, none⟩)

/-- `MasterAgent._handle_completed`. -/
def handle_completed (s : LoanApplicationState) (_o : Oracle) :
    LoanApplicationState × Response :=
  let da := s.final_decision == some "approved" && truthyS s.sanction_letter_path
  (s, ⟨.natural, ["conversation_complete"], da,
    if da then some ("/api/download/" ++ s.session_id) else none⟩)

/-- `MasterAgent._orchestrate`: dispatch on the conversation stage. -/
def orchestrate (s : LoanApplicationState) (o : Oracle) :
    LoanApplicationState × Response :=
  match s.conversation_stage with
  | .greeting => handle_greeting s o
  | .collecting_info => handle_info_collection s o
  | .kyc_verification => handle_kyc s o
  | .underwriting => handle_underwriting s o
  | .salary_collection => handle_salary_collection s o
  | .decision => handle_decision s o
  | .sanction_letter => handle_sanction_letter s o
  | .completed => handle_completed s o

/-- The state evolution of one `MasterAgent.process_message` call on an
existing session: append the user message, orchestrate, append the reply. -/
def processState (s : LoanApplicationState) (user_message : String) (o : Oracle) :
    LoanApplicationState × Response :=
  let s1 := addMessage s (.user user_message)
  let sr := orchestrate s1 o
  (addMessage sr.1 (.assistant sr.2.message), sr.2)

/-- Iterated `processState` over a conversation. -/
def runMessages (s : LoanApplicationState) (msgs : List (String × Oracle)) :
    LoanApplicationState :=
  msgs.foldl (fun st p => (processState st p.1 p.2).1) s

/-- A session state the orchestrator can actually be in. -/
def Reachable (s : LoanApplicationState) : Prop :=
  ∃ sid msgs, s = runMessages (initState sid) msgs

/-- Payload returned by `MasterAgent.process_message`. -/
structure Payload where
  session_id : String
  message : MsgOut
  stage : ConversationStage
  actions : List String
  download_available : Bool
  download_path : Option String
deriving DecidableEq, Repr

/-- `StateManager.get_session` over an association-list session store. -/
def lookupStore (store : List (String × LoanApplicationState)) (sid : String) :
    Option LoanApplicationState :=
  (store.find? (fun kv => kv.1 == sid)).map (fun kv => kv.2)

/-- `MasterAgent.process_message`: look the session up, silently creating a
fresh one (`fresh` stands for the uuid4 draw of `create_session`) when the
id is unknown; process, and return the payload plus the updated store. -/
def process_message (store : List (String × LoanApplicationState))
    (session_id : String) (fresh : String) (user_message : String) (o : Oracle) :
    Payload × List (String × LoanApplicationState) :=
  let state := match lookupStore store session_id with
    | some st => st
    | none => initState fresh
  let pr := processState state user_message o
  (⟨pr.1.session_id, pr.2.message, pr.1.conversation_stage, pr.2.actions,
     pr.2.download_available, pr.2.download_path⟩,
   (pr.1.session_id, pr.1) :: store)

end MasterAgent

section RoundingLemmas

lemma round2_le (x : ℚ) : round2 x ≤ x + 1 / 200 := by
  have h : ((Int.floor (x * 100 + 1 / 2) : ℚ)) ≤ x * 100 + 1 / 2 :=
    Int.floor_le _
  unfold round2
  rw [div_le_iff₀ (by norm_num : (0 : ℚ) < 100)]
  linarith

lemma lt_round2 (x : ℚ) : x - 1 / 200 < round2 x := by
  have h : x * 100 + 1 / 2 < (Int.floor (x * 100 + 1 / 2) : ℚ) + 1 :=
    Int.lt_floor_add_one _
  unfold round2
  rw [lt_div_iff₀ (by norm_num : (0 : ℚ) < 100)]
  linarith

/-- The DTI round-trip: once the EMI is at least one rupee, feeding the
minimum required salary back into the DTI formula lands within half a
percentage point of the 50 % ceiling. -/
lemma dti_roundtrip (e : ℚ) (he : 1 ≤ e) :
    |LoanCalculator.calculate_dti_ratio e
       (UnderwritingAgent.calculate_min_required_salary e) - 50| ≤ 1 / 2 := by
  have harg : e / (UnderwritingAgent.MAX_DTI / 100) = 2 * e := by
    unfold UnderwritingAgent.MAX_DTI
    norm_num
    ring
  have h1 : UnderwritingAgent.calculate_min_required_salary e = round2 (2 * e) := by
    unfold UnderwritingAgent.calculate_min_required_salary
    rw [harg]
  rw [h1]
  have hq1 : round2 (2 * e) ≤ 2 * e + 1 / 200 := round2_le _
  have hq2 : 2 * e - 1 / 200 < round2 (2 * e) := lt_round2 _
  have hqpos : 0 < round2 (2 * e) := by linarith
  unfold LoanCalculator.calculate_dti_ratio
  rw [if_neg (not_le.2 hqpos)]
  have hrw : e / round2 (2 * e) * 100 = e * 100 / round2 (2 * e) := by ring
  have hb1 : e / round2 (2 * e) * 100 ≤ 50 + 1 / 4 := by
    rw [hrw, div_le_iff₀ hqpos]
    nlinarith
  have hb2 : 50 - 1 / 4 ≤ e / round2 (2 * e) * 100 := by
    rw [hrw, le_div_iff₀ hqpos]
    nlinarith
  have r1 := round2_le (e / round2 (2 * e) * 100)
  have r2 := lt_round2 (e / round2 (2 * e) * 100)
  rw [abs_le]
  constructor <;> linarith

end RoundingLemmas

/-- C1: with all five loan/credit inputs present and truthy, a credit
score below 700 yields decision "rejected" with no EMI, no matter how the
loan amount compares to the pre-approved limit. -/
theorem credit_gate_rejects_below_700 (a r p : ℚ) (t c : Int) (sal : Option ℚ)
    (ha : a ≠ 0) (ht : t ≠ 0) (hr : r ≠ 0) (hc0 : c ≠ 0) (hp : p ≠ 0)
    (hc : c < 700) :
    (UnderwritingAgent.evaluate (some a) (some t) (some r) (some c) (some p)
        sal).decision = "rejected" ∧
    (UnderwritingAgent.evaluate (some a) (some t) (some r) (some c) (some p)
        sal).emi = none ∧
    (UnderwritingAgent.evaluate (some a) (some t) (some r) (some c) (some p)
        sal).reason = .lowCreditScore := by
  simp [UnderwritingAgent.evaluate, truthyQ, truthyI, ha, ht, hr, hc0, hp,
    UnderwritingAgent.MIN_CREDIT_SCORE, hc]

theorem credit_gate_rejects_below_700_witness :
    (UnderwritingAgent.evaluate (some 50000) (some 12) (some 11) (some 650)
        (some 300000) none).decision = "rejected" ∧
    (UnderwritingAgent.evaluate (some 50000) (some 12) (some 11) (some 650)
        (some 300000) none).emi = none ∧
    (UnderwritingAgent.evaluate (some 50000) (some 12) (some 11) (some 650)
        (some 300000) none).reason = .lowCreditScore :=
  credit_gate_rejects_below_700 50000 11 300000 12 650 none (by norm_num)
    (by norm_num) (by norm_num) (by norm_num) (by norm_num) (by norm_num)

/-- C2 (counterexample): with a negative pre-approved limit (still truthy)
the claimed case split fails: at loan = -15, limit = -10 the loan exceeds
twice the limit (-15 > -20), yet the code approves, because the
`loan_amount <= pre_approved_limit` branch fires first. -/
theorem limit_multiplier_cases_counterexample :
    ((-10 : ℚ) * 2 < -15) ∧
    (UnderwritingAgent.evaluate (some (-15)) (some 12) (some 10) (some 700)
        (some (-10)) none).decision = "approved" ∧
    (UnderwritingAgent.evaluate (some (-15)) (some 12) (some 10) (some 700)
        (some (-10)) none).decision ≠ "rejected" := by
  have h : (UnderwritingAgent.evaluate (some (-15)) (some 12) (some 10)
      (some 700) (some (-10)) none).decision = "approved" := by
    norm_num [UnderwritingAgent.evaluate, truthyQ, truthyI,
      UnderwritingAgent.MIN_CREDIT_SCORE]
  refine ⟨by norm_num, h, by rw [h]; decide⟩

/-- C2 (amended with `0 < pre_approved_limit`, the regime the
counterexample excludes): for truthy inputs with credit ≥ 700 —
within the limit approves with the computed EMI, between the limit and
its double (inclusive) without a salary goes pending with
requires_salary, and beyond double the limit rejects with no EMI. -/
theorem limit_multiplier_cases (a r p : ℚ) (t c : Int) (sal : Option ℚ)
    (ha : a ≠ 0) (ht : t ≠ 0) (hr : r ≠ 0) (hc : 700 ≤ c) (hp : 0 < p) :
    ((a ≤ p →
      (UnderwritingAgent.evaluate (some a) (some t) (some r) (some c) (some p)
          sal).decision = "approved" ∧
      (UnderwritingAgent.evaluate (some a) (some t) (some r) (some c) (some p)
          sal).emi = some (LoanCalculator.calculate_emi a r t))) ∧
    ((p < a → a ≤ p * 2 → sal = none →
      (UnderwritingAgent.evaluate (some a) (some t) (some r) (some c) (some p)
          sal).decision = "pending" ∧
      (UnderwritingAgent.evaluate (some a) (some t) (some r) (some c) (some p)
          sal).requires_salary = true)) ∧
    ((p * 2 < a →
      (UnderwritingAgent.evaluate (some a) (some t) (some r) (some c) (some p)
          sal).decision = "rejected" ∧
      (UnderwritingAgent.evaluate (some a) (some t) (some r) (some c) (some p)
          sal).emi = none)) := by
  have hc0 : c ≠ 0 := by omega
  have hp0 : p ≠ 0 := ne_of_gt hp
  have hcge : ¬(c < UnderwritingAgent.MIN_CREDIT_SCORE) := by
    unfold UnderwritingAgent.MIN_CREDIT_SCORE
    omega
  refine ⟨fun h1 => ?_, fun h1 h2 h3 => ?_, fun h1 => ?_⟩
  · simp [UnderwritingAgent.evaluate, truthyQ, truthyI, ha, ht, hr, hc0, hp0,
      hcge, h1]
  · subst h3
    simp [UnderwritingAgent.evaluate, truthyQ, truthyI, ha, ht, hr, hc0, hp0,
      hcge, not_le.2 h1, UnderwritingAgent.MAX_MULTIPLIER, not_lt.2 h2]
  · have hnle : ¬(a ≤ p) := by linarith
    simp [UnderwritingAgent.evaluate, truthyQ, truthyI, ha, ht, hr, hc0, hp0,
      hcge, hnle, UnderwritingAgent.MAX_MULTIPLIER, h1]

theorem limit_multiplier_cases_witness :
    ((100000 : ℚ) ≤ 300000 →
      (UnderwritingAgent.evaluate (some 100000) (some 12) (some 11) (some 720)
          (some 300000) none).decision = "approved" ∧
      (UnderwritingAgent.evaluate (some 100000) (some 12) (some 11) (some 720)
          (some 300000) none).emi =
        some (LoanCalculator.calculate_emi 100000 11 12)) ∧
    (((300000 : ℚ) < 100000 → (100000 : ℚ) ≤ 300000 * 2 → (none : Option ℚ) = none →
      (UnderwritingAgent.evaluate (some 100000) (some 12) (some 11) (some 720)
          (some 300000) none).decision = "pending" ∧
      (UnderwritingAgent.evaluate (some 100000) (some 12) (some 11) (some 720)
          (some 300000) none).requires_salary = true)) ∧
    (((300000 : ℚ) * 2 < 100000 →
      (UnderwritingAgent.evaluate (some 100000) (some 12) (some 11) (some 720)
          (some 300000) none).decision = "rejected" ∧
      (UnderwritingAgent.evaluate (some 100000) (some 12) (some 11) (some 720)
          (some 300000) none).emi = none)) :=
  limit_multiplier_cases 100000 11 300000 12 720 none (by norm_num)
    (by norm_num) (by norm_num) (by norm_num) (by norm_num)

/-- C5: all inputs present, credit ≥ 700, loan strictly between the limit
and twice the limit, salary supplied — approval holds exactly when the
DTI ratio is at most 50.0 (inclusive boundary), and a rejection carries
the DTI ratio. -/
theorem dti_boundary_inclusive (a r p w : ℚ) (t c : Int)
    (ht : t ≠ 0) (hr : r ≠ 0) (hc : 700 ≤ c) (h1 : p < a) (h2 : a ≤ p * 2) :
    ((LoanCalculator.calculate_dti_ratio (LoanCalculator.calculate_emi a r t) w ≤ 50 →
      (UnderwritingAgent.evaluate (some a) (some t) (some r) (some c) (some p)
          (some w)).decision = "approved" ∧
      (UnderwritingAgent.evaluate (some a) (some t) (some r) (some c) (some p)
          (some w)).dti_ratio =
        some (LoanCalculator.calculate_dti_ratio
          (LoanCalculator.calculate_emi a r t) w))) ∧
    ((50 < LoanCalculator.calculate_dti_ratio (LoanCalculator.calculate_emi a r t) w →
      (UnderwritingAgent.evaluate (some a) (some t) (some r) (some c) (some p)
          (some w)).decision = "rejected" ∧
      (UnderwritingAgent.evaluate (some a) (some t) (some r) (some c) (some p)
          (some w)).dti_ratio =
        some (LoanCalculator.calculate_dti_ratio
          (LoanCalculator.calculate_emi a r t) w))) := by
  have hp : 0 < p := by linarith
  have ha : a ≠ 0 := by
    intro h
    rw [h] at h1
    linarith
  have hc0 : c ≠ 0 := by omega
  have hp0 : p ≠ 0 := ne_of_gt hp
  have hcge : ¬(c < UnderwritingAgent.MIN_CREDIT_SCORE) := by
    unfold UnderwritingAgent.MIN_CREDIT_SCORE
    omega
  have hnle : ¬(a ≤ p) := not_le.2 h1
  refine ⟨fun hd => ?_, fun hd => ?_⟩
  · simp [UnderwritingAgent.evaluate, truthyQ, truthyI, ha, ht, hr, hc0, hp0,
      hcge, hnle, UnderwritingAgent.MAX_MULTIPLIER, not_lt.2 h2,
      UnderwritingAgent.MAX_DTI, hd]
  · simp [UnderwritingAgent.evaluate, truthyQ, truthyI, ha, ht, hr, hc0, hp0,
      hcge, hnle, UnderwritingAgent.MAX_MULTIPLIER, not_lt.2 h2,
      UnderwritingAgent.MAX_DTI, not_le.2 hd]

theorem dti_boundary_inclusive_witness :
    ((LoanCalculator.calculate_dti_ratio
        (LoanCalculator.calculate_emi 400000 12 36) 50000 ≤ 50 →
      (UnderwritingAgent.evaluate (some 400000) (some 36) (some 12) (some 720)
          (some 300000) (some 50000)).decision = "approved" ∧
      (UnderwritingAgent.evaluate (some 400000) (some 36) (some 12) (some 720)
          (some 300000) (some 50000)).dti_ratio =
        some (LoanCalculator.calculate_dti_ratio
          (LoanCalculator.calculate_emi 400000 12 36) 50000))) ∧
    ((50 < LoanCalculator.calculate_dti_ratio
        (LoanCalculator.calculate_emi 400000 12 36) 50000 →
      (UnderwritingAgent.evaluate (some 400000) (some 36) (some 12) (some 720)
          (some 300000) (some 50000)).decision = "rejected" ∧
      (UnderwritingAgent.evaluate (some 400000) (some 36) (some 12) (some 720)
          (some 300000) (some 50000)).dti_ratio =
        some (LoanCalculator.calculate_dti_ratio
          (LoanCalculator.calculate_emi 400000 12 36) 50000))) :=
  dti_boundary_inclusive 400000 12 300000 50000 36 720 (by norm_num)
    (by norm_num) (by norm_num) (by norm_num) (by norm_num)

/-- C6 (counterexample): a degenerately small loan reaches the
requires-salary branch with an EMI that rounds to 0, making
`required_min_salary` 0; the round-trip DTI is then 100, not 50 up to
rounding. -/
theorem required_salary_roundtrip_counterexample :
    (UnderwritingAgent.evaluate (some (1 / 1000)) (some 1) (some (1 / 100))
        (some 700) (some (1 / 2000)) none).decision = "pending" ∧
    (UnderwritingAgent.evaluate (some (1 / 1000)) (some 1) (some (1 / 100))
        (some 700) (some (1 / 2000)) none).requires_salary = true ∧
    (UnderwritingAgent.evaluate (some (1 / 1000)) (some 1) (some (1 / 100))
        (some 700) (some (1 / 2000)) none).emi = some 0 ∧
    (UnderwritingAgent.evaluate (some (1 / 1000)) (some 1) (some (1 / 100))
        (some 700) (some (1 / 2000)) none).required_min_salary = some 0 ∧
    LoanCalculator.calculate_dti_ratio 0 0 = 100 ∧
    ¬(|(100 : ℚ) - 50| ≤ 1 / 2) := by
  have hemi : LoanCalculator.calculate_emi (1 / 1000) (1 / 100) 1 = 0 := by
    unfold LoanCalculator.calculate_emi
    rw [if_neg (by norm_num)]
    rw [show (1 : Int).toNat = 1 from rfl]
    norm_num [round2]
  have hred : UnderwritingAgent.evaluate (some (1 / 1000)) (some 1)
      (some (1 / 100)) (some 700) (some (1 / 2000)) none =
      ⟨"pending", .salaryVerificationRequired, some 0, true, some 0, none, false⟩ := by
    norm_num [UnderwritingAgent.evaluate, truthyQ, truthyI,
      UnderwritingAgent.MIN_CREDIT_SCORE, UnderwritingAgent.MAX_MULTIPLIER,
      hemi, UnderwritingAgent.calculate_min_required_salary,
      UnderwritingAgent.MAX_DTI, round2]
  rw [hred]
  refine ⟨rfl, rfl, rfl, rfl, by norm_num [LoanCalculator.calculate_dti_ratio],
    by norm_num⟩

/-- C6 (amended, excluding EMIs that round below one rupee): every
requires-salary pending decision returns
`required_min_salary = round(emi / (50/100), 2)`, and whenever that EMI
is at least 1, the round-trip `calculate_dti_ratio(emi,
required_min_salary)` lies within 0.5 of 50.0. -/
theorem required_salary_roundtrip (a r p : ℚ) (t c : Int)
    (ht : t ≠ 0) (hr : r ≠ 0) (hc : 700 ≤ c) (h1 : p < a) (h2 : a ≤ p * 2) :
    (UnderwritingAgent.evaluate (some a) (some t) (some r) (some c) (some p)
        none).decision = "pending" ∧
    (UnderwritingAgent.evaluate (some a) (some t) (some r) (some c) (some p)
        none).requires_salary = true ∧
    (UnderwritingAgent.evaluate (some a) (some t) (some r) (some c) (some p)
        none).emi = some (LoanCalculator.calculate_emi a r t) ∧
    (UnderwritingAgent.evaluate (some a) (some t) (some r) (some c) (some p)
        none).required_min_salary =
      some (UnderwritingAgent.calculate_min_required_salary
        (LoanCalculator.calculate_emi a r t)) ∧
    (1 ≤ LoanCalculator.calculate_emi a r t →
      |LoanCalculator.calculate_dti_ratio (LoanCalculator.calculate_emi a r t)
          (UnderwritingAgent.calculate_min_required_salary
            (LoanCalculator.calculate_emi a r t)) - 50| ≤ 1 / 2) := by
  have hp : 0 < p := by linarith
  have ha : a ≠ 0 := by
    intro h
    rw [h] at h1
    linarith
  have hc0 : c ≠ 0 := by omega
  have hp0 : p ≠ 0 := ne_of_gt hp
  have hcge : ¬(c < UnderwritingAgent.MIN_CREDIT_SCORE) := by
    unfold UnderwritingAgent.MIN_CREDIT_SCORE
    omega
  have hnle : ¬(a ≤ p) := not_le.2 h1
  refine ⟨?_, ?_, ?_, ?_, fun he => dti_roundtrip _ he⟩ <;>
    simp [UnderwritingAgent.evaluate, truthyQ, truthyI, ha, ht, hr, hc0, hp0,
      hcge, hnle, UnderwritingAgent.MAX_MULTIPLIER, not_lt.2 h2]

theorem required_salary_roundtrip_witness :
    (UnderwritingAgent.evaluate (some 400000) (some 36) (some 12) (some 720)
        (some 300000) none).decision = "pending" ∧
    (UnderwritingAgent.evaluate (some 400000) (some 36) (some 12) (some 720)
        (some 300000) none).requires_salary = true ∧
    (UnderwritingAgent.evaluate (some 400000) (some 36) (some 12) (some 720)
        (some 300000) none).emi =
      some (LoanCalculator.calculate_emi 400000 12 36) ∧
    (UnderwritingAgent.evaluate (some 400000) (some 36) (some 12) (some 720)
        (some 300000) none).required_min_salary =
      some (UnderwritingAgent.calculate_min_required_salary
        (LoanCalculator.calculate_emi 400000 12 36)) ∧
    (1 ≤ LoanCalculator.calculate_emi 400000 12 36 →
      |LoanCalculator.calculate_dti_ratio (LoanCalculator.calculate_emi 400000 12 36)
          (UnderwritingAgent.calculate_min_required_salary
            (LoanCalculator.calculate_emi 400000 12 36)) - 50| ≤ 1 / 2) :=
  required_salary_roundtrip 400000 12 300000 36 720 (by norm_num)
    (by norm_num) (by norm_num) (by norm_num) (by norm_num)

/-- C8 (counterexample): the reference EMI for 10 lakh at 12 % over 36
months is 33,214.31 after 2-decimal rounding, not the 33,214.36 the spec
quotes. -/
theorem emi_value_counterexample :
    LoanCalculator.calculate_emi 1000000 12 36 = 3321431 / 100 ∧
    LoanCalculator.calculate_emi 1000000 12 36 ≠ 3321436 / 100 := by
  have h : LoanCalculator.calculate_emi 1000000 12 36 = 3321431 / 100 := by
    unfold LoanCalculator.calculate_emi
    rw [if_neg (by norm_num)]
    rw [show (36 : Int).toNat = 36 from rfl]
    norm_num [round2]
  exact ⟨h, by rw [h]; norm_num⟩

/-- C8 (amended to the true reference value 33,214.31): any non-positive
input returns 0, positive inputs produce the rounded amortization
formula, and the 10-lakh/12 %/36-month instance evaluates to 33,214.31. -/
theorem emi_guard_and_value :
    (∀ (p r : ℚ) (t : Int), p ≤ 0 ∨ r ≤ 0 ∨ t ≤ 0 →
      LoanCalculator.calculate_emi p r t = 0) ∧
    (∀ (p r : ℚ) (t : Int), 0 < p → 0 < r → 0 < t →
      LoanCalculator.calculate_emi p r t =
        round2 (p * (r / 1200) * (1 + r / 1200) ^ t.toNat /
          ((1 + r / 1200) ^ t.toNat - 1))) ∧
    LoanCalculator.calculate_emi 1000000 12 36 = 3321431 / 100 := by
  have hval : LoanCalculator.calculate_emi 1000000 12 36 = 3321431 / 100 := by
    unfold LoanCalculator.calculate_emi
    rw [if_neg (by norm_num)]
    rw [show (36 : Int).toNat = 36 from rfl]
    norm_num [round2]
  refine ⟨fun p r t h => ?_, fun p r t hp hr ht => ?_, hval⟩
  · simp [LoanCalculator.calculate_emi, h]
  · rw [LoanCalculator.calculate_emi, if_neg]
    · norm_num
    · push_neg
      exact ⟨hp, hr, ht⟩

theorem emi_guard_and_value_witness :
    LoanCalculator.calculate_emi 0 12 36 = 0 ∧
    LoanCalculator.calculate_emi 1000 12 1 =
      round2 (1000 * ((12 : ℚ) / 1200) * (1 + (12 : ℚ) / 1200) ^ (1 : Int).toNat /
        ((1 + (12 : ℚ) / 1200) ^ (1 : Int).toNat - 1)) :=
  ⟨emi_guard_and_value.1 0 12 36 (Or.inl le_rfl),
   emi_guard_and_value.2.1 1000 12 1 (by norm_num) (by norm_num) (by norm_num)⟩

/-- C7: KYC verification is total — it always reports success — and for a
phone that is neither the demo number nor in the mock directory it
synthesizes a fully verified profile whose limit follows the score-tier
table on a score in [0, 900]. -/
theorem verify_customer_always_succeeds (phone name : Option String) (r : Int)
    (pn : String) (hr0 : 0 ≤ r) (hr9 : r ≤ 900) (hne : pn ≠ "")
    (hdem : pn ≠ VerificationAgent.DEMO_PHONE_NUMBER)
    (hdb : VerificationAgent.lookupDb pn = none) :
    (VerificationAgent.verify_customer phone name r).success = true ∧
    (VerificationAgent.verify_customer (some pn) name r).phone_verified = true ∧
    (VerificationAgent.verify_customer (some pn) name r).address_verified = true ∧
    (VerificationAgent.verify_customer (some pn) name r).credit_score = r ∧
    0 ≤ (VerificationAgent.verify_customer (some pn) name r).credit_score ∧
    (VerificationAgent.verify_customer (some pn) name r).credit_score ≤ 900 ∧
    (VerificationAgent.verify_customer (some pn) name r).pre_approved_limit =
      VerificationAgent.calculate_pre_approved_limit r ∧
    (800 ≤ r → VerificationAgent.calculate_pre_approved_limit r = 500000) ∧
    (750 ≤ r → r < 800 → VerificationAgent.calculate_pre_approved_limit r = 400000) ∧
    (700 ≤ r → r < 750 → VerificationAgent.calculate_pre_approved_limit r = 300000) ∧
    (650 ≤ r → r < 700 → VerificationAgent.calculate_pre_approved_limit r = 200000) ∧
    (r < 650 → VerificationAgent.calculate_pre_approved_limit r = 100000) := by
  have hmain : VerificationAgent.verify_customer (some pn) name r =
      ⟨true, true, true, r, VerificationAgent.calculate_pre_approved_limit r,
        orDefault name "Valued Customer"⟩ := by
    simp [VerificationAgent.verify_customer, truthyS, hne, hdem, hdb]
  refine ⟨?_, ?_, ?_, ?_, ?_, ?_, ?_, ?_, ?_, ?_, ?_, ?_⟩
  · unfold VerificationAgent.verify_customer
    dsimp only
    repeat' split
    all_goals rfl
  · rw [hmain]
  · rw [hmain]
  · rw [hmain]
  · rw [hmain]
    exact hr0
  · rw [hmain]
    exact hr9
  · rw [hmain]
  · intro h
    unfold VerificationAgent.calculate_pre_approved_limit
    split_ifs <;> first | rfl | omega
  · intro h1 h2
    unfold VerificationAgent.calculate_pre_approved_limit
    split_ifs <;> first | rfl | omega
  · intro h1 h2
    unfold VerificationAgent.calculate_pre_approved_limit
    split_ifs <;> first | rfl | omega
  · intro h1 h2
    unfold VerificationAgent.calculate_pre_approved_limit
    split_ifs <;> first | rfl | omega
  · intro h
    unfold VerificationAgent.calculate_pre_approved_limit
    split_ifs <;> first | rfl | omega

namespace MasterAgent

/-- Session invariant: a non-null `final_decision` only occurs in the
post-decision stages. -/
def fdInv (s : LoanApplicationState) : Prop :=
  s.final_decision = none ∨ s.conversation_stage = .sanction_letter ∨
    s.conversation_stage = .completed

/-- Common shape of one handler step as seen from state `s`: the session
id is stable, and `final_decision` is either untouched or freshly written
to approved/rejected together with a post-decision stage. -/
def UShape (s s2 : LoanApplicationState) : Prop :=
  s2.session_id = s.session_id ∧
  (s2.final_decision = s.final_decision ∨
   (s2.final_decision = some "approved" ∧
     (s2.conversation_stage = .sanction_letter ∨ s2.conversation_stage = .completed)) ∨
   (s2.final_decision = some "rejected" ∧ s2.conversation_stage = .completed))

lemma UShape_congr {s s3 s2 : LoanApplicationState}
    (h1 : s3.session_id = s.session_id)
    (h2 : s3.final_decision = s.final_decision) :
    UShape s3 s2 → UShape s s2 := by
  rintro ⟨a, b | b | b⟩
  · exact ⟨a.trans h1, Or.inl (b.trans h2)⟩
  · exact ⟨a.trans h1, Or.inr (Or.inl b)⟩
  · exact ⟨a.trans h1, Or.inr (Or.inr b)⟩

lemma handle_sanction_letter_shape (s : LoanApplicationState) (o : Oracle) :
    (handle_sanction_letter s o).1.session_id = s.session_id ∧
    (handle_sanction_letter s o).1.final_decision = s.final_decision ∧
    (handle_sanction_letter s o).1.underwriting_status = s.underwriting_status ∧
    ((handle_sanction_letter s o).1.conversation_stage = .completed ∨
     (handle_sanction_letter s o).1.conversation_stage = s.conversation_stage) := by
  unfold handle_sanction_letter
  dsimp only
  split
  · exact ⟨rfl, rfl, rfl, Or.inl rfl⟩
  · exact ⟨rfl, rfl, rfl, Or.inr rfl⟩

lemma handle_underwriting_shape (s : LoanApplicationState) (o : Oracle) :
    UShape s (handle_underwriting s o).1 := by
  unfold handle_underwriting
  dsimp only
  split
  · obtain ⟨h1, h2, _h3, h4⟩ := handle_sanction_letter_shape _ o
    refine ⟨h1, Or.inr (Or.inl ⟨h2, ?_⟩)⟩
    rcases h4 with h | h
    · exact Or.inr h
    · exact Or.inl h
  · split
    · exact ⟨rfl, Or.inr (Or.inr ⟨rfl, rfl⟩)⟩
    · split
      · exact ⟨rfl, Or.inl rfl⟩
      · exact ⟨rfl, Or.inl rfl⟩

lemma handle_kyc_shape (s : LoanApplicationState) (o : Oracle) :
    UShape s (handle_kyc s o).1 := by
  unfold handle_kyc
  dsimp only
  repeat' split
  all_goals exact handle_underwriting_shape _ o

lemma applyExtraction_shape (s : LoanApplicationState) (e : Extraction) :
    (applyExtraction s e).session_id = s.session_id ∧
    (applyExtraction s e).final_decision = s.final_decision ∧
    (applyExtraction s e).conversation_stage = s.conversation_stage := by
  unfold applyExtraction
  dsimp only
  repeat' split
  all_goals exact ⟨rfl, rfl, rfl⟩

lemma handle_info_collection_shape (s : LoanApplicationState) (o : Oracle) :
    UShape s (handle_info_collection s o).1 := by
  obtain ⟨e1, e2, _e3⟩ := applyExtraction_shape s o.extraction
  unfold handle_info_collection
  dsimp only
  split
  · exact UShape_congr e1 e2 (handle_kyc_shape _ o)
  · exact ⟨e1, Or.inl e2⟩

lemma handle_salary_collection_shape (s : LoanApplicationState) (o : Oracle) :
    UShape s (handle_salary_collection s o).1 := by
  unfold handle_salary_collection
  split
  · exact handle_underwriting_shape _ o
  · split
    · exact handle_underwriting_shape _ o
    · exact ⟨rfl, Or.inl rfl⟩

lemma orchestrate_shape (s : LoanApplicationState) (o : Oracle) :
    UShape s (orchestrate s o).1 ∧
    (fdInv s → fdInv (orchestrate s o).1 ∧
      ((orchestrate s o).1.final_decision = s.final_decision ∨
        (s.final_decision = none ∧
          ((orchestrate s o).1.final_decision = some "approved" ∨
           (orchestrate s o).1.final_decision = some "rejected")))) := by
  have hnone : ∀ st : ConversationStage, s.conversation_stage = st →
      st ≠ .sanction_letter → st ≠ .completed → fdInv s →
      s.final_decision = none := by
    intro st hst hne1 hne2 hinv
    rcases hinv with h | h | h
    · exact h
    · exact absurd (hst.symm.trans h) hne1
    · exact absurd (hst.symm.trans h) hne2
  have hshape : ∀ s2, UShape s s2 → s.final_decision = none →
      fdInv s2 ∧ (s2.final_decision = s.final_decision ∨
        (s.final_decision = none ∧
          (s2.final_decision = some "approved" ∨ s2.final_decision = some "rejected"))) := by
    rintro s2 ⟨_, b | b | b⟩ hfd
    · exact ⟨Or.inl (b.trans hfd), Or.inl b⟩
    · exact ⟨Or.inr (b.2.imp id id), Or.inr ⟨hfd, Or.inl b.1⟩⟩
    · exact ⟨Or.inr (Or.inr b.2), Or.inr ⟨hfd, Or.inr b.1⟩⟩
  cases hst : s.conversation_stage
  case greeting =>
    have horch : orchestrate s o = handle_greeting s o := by
      unfold orchestrate
      rw [hst]
    rw [horch]
    refine ⟨⟨rfl, Or.inl rfl⟩, fun hinv => ?_⟩
    have hfd := hnone _ hst (by simp) (by simp) hinv
    exact ⟨Or.inl hfd, Or.inl rfl⟩
  case collecting_info =>
    have horch : orchestrate s o = handle_info_collection s o := by
      unfold orchestrate
      rw [hst]
    rw [horch]
    refine ⟨handle_info_collection_shape s o, fun hinv => ?_⟩
    exact hshape _ (handle_info_collection_shape s o)
      (hnone _ hst (by simp) (by simp) hinv)
  case kyc_verification =>
    have horch : orchestrate s o = handle_kyc s o := by
      unfold orchestrate
      rw [hst]
    rw [horch]
    refine ⟨handle_kyc_shape s o, fun hinv => ?_⟩
    exact hshape _ (handle_kyc_shape s o) (hnone _ hst (by simp) (by simp) hinv)
  case underwriting =>
    have horch : orchestrate s o = handle_underwriting s o := by
      unfold orchestrate
      rw [hst]
    rw [horch]
    refine ⟨handle_underwriting_shape s o, fun hinv => ?_⟩
    exact hshape _ (handle_underwriting_shape s o)
      (hnone _ hst (by simp) (by simp) hinv)
  case salary_collection =>
    have horch : orchestrate s o = handle_salary_collection s o := by
      unfold orchestrate
      rw [hst]
    rw [horch]
    refine ⟨handle_salary_collection_shape s o, fun hinv => ?_⟩
    exact hshape _ (handle_salary_collection_shape s o)
      (hnone _ hst (by simp) (by simp) hinv)
  case decision =>
    have horch : orchestrate s o = handle_decision s o := by
      unfold orchestrate
      rw [hst]
    rw [horch]
    exact ⟨⟨rfl, Or.inl rfl⟩, fun hinv => ⟨hinv, Or.inl rfl⟩⟩
  case sanction_letter =>
    have horch : orchestrate s o = handle_sanction_letter s o := by
      unfold orchestrate
      rw [hst]
    rw [horch]
    obtain ⟨h1, h2, _h3, h4⟩ := handle_sanction_letter_shape s o
    refine ⟨⟨h1, Or.inl h2⟩, fun _hinv => ⟨?_, Or.inl h2⟩⟩
    rcases h4 with h | h
    · exact Or.inr (Or.inr h)
    · exact Or.inr (Or.inl (h.trans hst))
  case completed =>
    have horch : orchestrate s o = handle_completed s o := by
      unfold orchestrate
      rw [hst]
    rw [horch]
    exact ⟨⟨rfl, Or.inl rfl⟩, fun hinv => ⟨hinv, Or.inl rfl⟩⟩

lemma processState_shape (s : LoanApplicationState) (m : String) (o : Oracle) :
    (processState s m o).1.session_id = s.session_id ∧
    (fdInv s → fdInv (processState s m o).1 ∧
      ((processState s m o).1.final_decision = s.final_decision ∨
        (s.final_decision = none ∧
          ((processState s m o).1.final_decision = some "approved" ∨
           (processState s m o).1.final_decision = some "rejected")))) := by
  unfold processState addMessage
  dsimp only
  exact ⟨(orchestrate_shape _ o).1.1, fun h => (orchestrate_shape _ o).2 h⟩

lemma runMessages_fdInv : ∀ (msgs : List (String × Oracle))
    (s : LoanApplicationState), fdInv s → fdInv (runMessages s msgs)
  | [], _, h => h
  | p :: ps, s, h =>
    runMessages_fdInv ps (processState s p.1 p.2).1
      ((processState_shape s p.1 p.2).2 h).1

lemma runMessages_fd_frozen : ∀ (msgs : List (String × Oracle))
    (s : LoanApplicationState), fdInv s → s.final_decision ≠ none →
    (runMessages s msgs).final_decision = s.final_decision
  | [], _, _, _ => rfl
  | p :: ps, s, hinv, hne => by
    have hs := (processState_shape s p.1 p.2).2 hinv
    have hfd : (processState s p.1 p.2).1.final_decision = s.final_decision := by
      rcases hs.2 with h | h
      · exact h
      · exact absurd h.1 hne
    have hr := runMessages_fd_frozen ps (processState s p.1 p.2).1 hs.1
      (by rw [hfd]; exact hne)
    exact hr.trans hfd

lemma Reachable_fdInv (s : LoanApplicationState) (h : Reachable s) : fdInv s := by
  obtain ⟨sid, msgs, rfl⟩ := h
  exact runMessages_fdInv msgs _ (Or.inl rfl)

end MasterAgent

theorem verify_customer_always_succeeds_witness :
    (VerificationAgent.verify_customer (some "1234512345") none 777).success = true ∧
    (VerificationAgent.verify_customer (some "1234512345") none 777).phone_verified = true ∧
    (VerificationAgent.verify_customer (some "1234512345") none 777).address_verified = true ∧
    (VerificationAgent.verify_customer (some "1234512345") none 777).credit_score = 777 ∧
    0 ≤ (VerificationAgent.verify_customer (some "1234512345") none 777).credit_score ∧
    (VerificationAgent.verify_customer (some "1234512345") none 777).credit_score ≤ 900 ∧
    (VerificationAgent.verify_customer (some "1234512345") none 777).pre_approved_limit =
      VerificationAgent.calculate_pre_approved_limit 777 ∧
    (800 ≤ (777 : Int) → VerificationAgent.calculate_pre_approved_limit 777 = 500000) ∧
    (750 ≤ (777 : Int) → (777 : Int) < 800 →
      VerificationAgent.calculate_pre_approved_limit 777 = 400000) ∧
    (700 ≤ (777 : Int) → (777 : Int) < 750 →
      VerificationAgent.calculate_pre_approved_limit 777 = 300000) ∧
    (650 ≤ (777 : Int) → (777 : Int) < 700 →
      VerificationAgent.calculate_pre_approved_limit 777 = 200000) ∧
    ((777 : Int) < 650 → VerificationAgent.calculate_pre_approved_limit 777 = 100000) :=
  verify_customer_always_succeeds (some "1234512345") none 777 "1234512345"
    (by norm_num) (by norm_num) (by decide) (by decide) (by decide)


/-- C3 (counterexample): a session in the underwriting stage whose credit
score was stored as 0 (a falsy value) receives a missing-credit
"pending" with `requires_salary = false`, yet the orchestrator moves the
stage to salary_collection instead of staying at underwriting. -/
theorem pending_missing_data_stage_counterexample :
    (UnderwritingAgent.evaluate (some 200000) (some 24) (some 12) (some 0)
        (some 100000) none).decision = "pending" ∧
    (UnderwritingAgent.evaluate (some 200000) (some 24) (some 12) (some 0)
        (some 100000) none).requires_salary = false ∧
    (UnderwritingAgent.evaluate (some 200000) (some 24) (some 12) (some 0)
        (some 100000) none).reason = .missingCreditInfo ∧
    (MasterAgent.orchestrate
      { initState "s3" with
        conversation_stage := .underwriting,
        customer_name := some "Asha", phone_number := some "9000000001",
        loan_amount := some 200000, tenure_months := some 24,
        interest_rate := some 12, credit_score := some 0,
        pre_approved_limit := some 100000 }
      ⟨⟨false, none, none, none, none, none, none⟩, 0, true, none⟩).1.conversation_stage =
      .salary_collection ∧
    (MasterAgent.orchestrate
      { initState "s3" with
        conversation_stage := .underwriting,
        customer_name := some "Asha", phone_number := some "9000000001",
        loan_amount := some 200000, tenure_months := some 24,
        interest_rate := some 12, credit_score := some 0,
        pre_approved_limit := some 100000 }
      ⟨⟨false, none, none, none, none, none, none⟩, 0, true, none⟩).1.conversation_stage ≠
      .underwriting := by
  have hev : UnderwritingAgent.evaluate (some 200000) (some 24) (some 12)
      (some 0) (some 100000) none =
      ⟨"pending", .missingCreditInfo, none, false, none, none, false⟩ := by
    norm_num [UnderwritingAgent.evaluate, truthyQ, truthyI]
  have horch : (MasterAgent.orchestrate
      { initState "s3" with
        conversation_stage := .underwriting,
        customer_name := some "Asha", phone_number := some "9000000001",
        loan_amount := some 200000, tenure_months := some 24,
        interest_rate := some 12, credit_score := some 0,
        pre_approved_limit := some 100000 }
      ⟨⟨false, none, none, none, none, none, none⟩, 0, true, none⟩).1.conversation_stage =
      .salary_collection := by
    unfold MasterAgent.orchestrate
    dsimp only [initState]
    unfold MasterAgent.handle_underwriting
    dsimp only [initState]
    rw [hev]
    rw [if_neg (by decide), if_neg (by decide), if_pos rfl]
  refine ⟨by rw [hev], by rw [hev], by rw [hev], horch, by rw [horch]; decide⟩

/-- C3 (amended: every "pending" underwriting outcome — including those
for missing loan details or missing credit information — moves the
session to salary_collection with `underwriting_status =
requires_salary`; nothing stays at the underwriting stage): -/
theorem pending_goes_to_salary_collection (s : LoanApplicationState) (o : Oracle)
    (hstage : s.conversation_stage = .underwriting)
    (hpend : (UnderwritingAgent.evaluate s.loan_amount s.tenure_months
        s.interest_rate s.credit_score s.pre_approved_limit s.salary).decision =
      "pending") :
    (MasterAgent.orchestrate s o).1.conversation_stage = .salary_collection ∧
    (MasterAgent.orchestrate s o).1.underwriting_status = .requires_salary ∧
    (MasterAgent.orchestrate s o).1.final_decision = s.final_decision ∧
    (MasterAgent.orchestrate s o).2.actions = ["salary_required"] := by
  have horch : MasterAgent.orchestrate s o = MasterAgent.handle_underwriting s o := by
    unfold MasterAgent.orchestrate
    rw [hstage]
  rw [horch]
  unfold MasterAgent.handle_underwriting
  dsimp only
  rw [hpend]
  rw [if_neg (by decide), if_neg (by decide), if_pos rfl]
  exact ⟨rfl, rfl, rfl, rfl⟩

theorem pending_goes_to_salary_collection_witness :
    (MasterAgent.orchestrate
      { initState "w3" with
        conversation_stage := .underwriting,
        loan_amount := some 500000, tenure_months := some 36,
        interest_rate := some 12, credit_score := some 750,
        pre_approved_limit := some 300000 }
      ⟨⟨false, none, none, none, none, none, none⟩, 0, true, none⟩).1.conversation_stage =
      .salary_collection ∧
    (MasterAgent.orchestrate
      { initState "w3" with
        conversation_stage := .underwriting,
        loan_amount := some 500000, tenure_months := some 36,
        interest_rate := some 12, credit_score := some 750,
        pre_approved_limit := some 300000 }
      ⟨⟨false, none, none, none, none, none, none⟩, 0, true, none⟩).1.underwriting_status =
      .requires_salary ∧
    (MasterAgent.orchestrate
      { initState "w3" with
        conversation_stage := .underwriting,
        loan_amount := some 500000, tenure_months := some 36,
        interest_rate := some 12, credit_score := some 750,
        pre_approved_limit := some 300000 }
      ⟨⟨false, none, none, none, none, none, none⟩, 0, true, none⟩).1.final_decision =
      ({ initState "w3" with
        conversation_stage := .underwriting,
        loan_amount := some 500000, tenure_months := some 36,
        interest_rate := some 12, credit_score := some 750,
        pre_approved_limit := some 300000 } : LoanApplicationState).final_decision ∧
    (MasterAgent.orchestrate
      { initState "w3" with
        conversation_stage := .underwriting,
        loan_amount := some 500000, tenure_months := some 36,
        interest_rate := some 12, credit_score := some 750,
        pre_approved_limit := some 300000 }
      ⟨⟨false, none, none, none, none, none, none⟩, 0, true, none⟩).2.actions =
      ["salary_required"] :=
  pending_goes_to_salary_collection _ _ rfl
    (by norm_num [UnderwritingAgent.evaluate, truthyQ, truthyI, initState,
      UnderwritingAgent.MIN_CREDIT_SCORE, UnderwritingAgent.MAX_MULTIPLIER])

/-- C4 (counterexample): an application approved by underwriting whose
PDF issuance fails stays at conversation_stage = sanction_letter — it is
not moved to completed in that turn (the approval itself stands and the
apology message is returned). -/
theorem sanction_failure_stage_counterexample :
    (UnderwritingAgent.evaluate (some 200000) (some 24) (some 12) (some 750)
        (some 300000) none).decision = "approved" ∧
    (MasterAgent.orchestrate
      { initState "s4" with
        conversation_stage := .underwriting,
        customer_name := some "Asha", phone_number := some "9000000001",
        loan_amount := some 200000, tenure_months := some 24,
        interest_rate := some 12, credit_score := some 750,
        pre_approved_limit := some 300000 }
      ⟨⟨false, none, none, none, none, none, none⟩, 0, false, none⟩).1.conversation_stage =
      .sanction_letter ∧
    (MasterAgent.orchestrate
      { initState "s4" with
        conversation_stage := .underwriting,
        customer_name := some "Asha", phone_number := some "9000000001",
        loan_amount := some 200000, tenure_months := some 24,
        interest_rate := some 12, credit_score := some 750,
        pre_approved_limit := some 300000 }
      ⟨⟨false, none, none, none, none, none, none⟩, 0, false, none⟩).1.conversation_stage ≠
      .completed ∧
    (MasterAgent.orchestrate
      { initState "s4" with
        conversation_stage := .underwriting,
        customer_name := some "Asha", phone_number := some "9000000001",
        loan_amount := some 200000, tenure_months := some 24,
        interest_rate := some 12, credit_score := some 750,
        pre_approved_limit := some 300000 }
      ⟨⟨false, none, none, none, none, none, none⟩, 0, false, none⟩).2.message =
      .sanctionLetterError ∧
    (MasterAgent.orchestrate
      { initState "s4" with
        conversation_stage := .underwriting,
        customer_name := some "Asha", phone_number := some "9000000001",
        loan_amount := some 200000, tenure_months := some 24,
        interest_rate := some 12, credit_score := some 750,
        pre_approved_limit := some 300000 }
      ⟨⟨false, none, none, none, none, none, none⟩, 0, false, none⟩).1.final_decision =
      some "approved" := by
  have hev : UnderwritingAgent.evaluate (some 200000) (some 24) (some 12)
      (some 750) (some 300000) none =
      ⟨"approved", .withinPreApprovedLimit,
        some (LoanCalculator.calculate_emi 200000 12 24), false, none, none,
        false⟩ := by
    norm_num [UnderwritingAgent.evaluate, truthyQ, truthyI,
      UnderwritingAgent.MIN_CREDIT_SCORE]
  have hemi : ¬(LoanCalculator.calculate_emi 200000 12 24 = 0) := by
    unfold LoanCalculator.calculate_emi
    rw [if_neg (by norm_num)]
    rw [show (24 : Int).toNat = 24 from rfl]
    norm_num [round2]
  have hred : (MasterAgent.orchestrate
      { initState "s4" with
        conversation_stage := .underwriting,
        customer_name := some "Asha", phone_number := some "9000000001",
        loan_amount := some 200000, tenure_months := some 24,
        interest_rate := some 12, credit_score := some 750,
        pre_approved_limit := some 300000 }
      ⟨⟨false, none, none, none, none, none, none⟩, 0, false, none⟩).1.conversation_stage =
        .sanction_letter ∧
      (MasterAgent.orchestrate
      { initState "s4" with
        conversation_stage := .underwriting,
        customer_name := some "Asha", phone_number := some "9000000001",
        loan_amount := some 200000, tenure_months := some 24,
        interest_rate := some 12, credit_score := some 750,
        pre_approved_limit := some 300000 }
      ⟨⟨false, none, none, none, none, none, none⟩, 0, false, none⟩).2.message =
        .sanctionLetterError ∧
      (MasterAgent.orchestrate
      { initState "s4" with
        conversation_stage := .underwriting,
        customer_name := some "Asha", phone_number := some "9000000001",
        loan_amount := some 200000, tenure_months := some 24,
        interest_rate := some 12, credit_score := some 750,
        pre_approved_limit := some 300000 }
      ⟨⟨false, none, none, none, none, none, none⟩, 0, false, none⟩).1.final_decision =
        some "approved" := by
    unfold MasterAgent.orchestrate
    dsimp only [initState]
    unfold MasterAgent.handle_underwriting
    dsimp only [initState]
    rw [hev]
    rw [if_pos rfl]
    unfold MasterAgent.handle_sanction_letter
    dsimp only [initState, orDefault, truthyS]
    unfold SanctionAgent.generate_sanction_letter
    rw [if_neg]
    · exact ⟨rfl, rfl, rfl⟩
    · simp [truthyQ, truthyI, hemi]
  exact ⟨hev ▸ rfl, hred.1, by rw [hred.1]; decide, hred.2.1, hred.2.2⟩

/-- C4 (amended: on issuance failure the stage stays at sanction_letter
rather than moving to completed): in the same turn in which underwriting
approves, if PDF generation fails the orchestrator returns the apology
message, leaves the stage at sanction_letter, and the approval stands
(`final_decision = "approved"`, `underwriting_status = approved`). -/
theorem sanction_failure_keeps_approval (s : LoanApplicationState) (o : Oracle)
    (hstage : s.conversation_stage = .underwriting)
    (happr : (UnderwritingAgent.evaluate s.loan_amount s.tenure_months
        s.interest_rate s.credit_score s.pre_approved_limit s.salary).decision =
      "approved")
    (hfail : o.sanctionOk = false) :
    (MasterAgent.orchestrate s o).1.conversation_stage = .sanction_letter ∧
    (MasterAgent.orchestrate s o).2.message = .sanctionLetterError ∧
    (MasterAgent.orchestrate s o).1.final_decision = some "approved" ∧
    (MasterAgent.orchestrate s o).1.underwriting_status = .approved := by
  have horch : MasterAgent.orchestrate s o = MasterAgent.handle_underwriting s o := by
    unfold MasterAgent.orchestrate
    rw [hstage]
  rw [horch]
  unfold MasterAgent.handle_underwriting
  dsimp only
  rw [happr, if_pos rfl]
  unfold MasterAgent.handle_sanction_letter
  dsimp only
  unfold SanctionAgent.generate_sanction_letter
  rw [hfail]
  have hsucc : ∀ c : Bool, (if !c then
      (⟨false, none⟩ : SanctionResult)
    else if (false : Bool) then
      ⟨true, some ("generated_letters/sanction_letter_" ++ s.session_id ++ ".pdf")⟩
    else ⟨false, none⟩).success = false := by
    intro c
    cases c <;> rfl
  rw [if_neg]
  · exact ⟨rfl, rfl, rfl, rfl⟩
  · intro hcon
    have h2 := (hsucc _).symm.trans hcon
    exact Bool.false_ne_true h2

theorem sanction_failure_keeps_approval_witness :
    (MasterAgent.orchestrate
      { initState "w4" with
        conversation_stage := .underwriting,
        customer_name := some "Ravi", phone_number := some "9000000002",
        loan_amount := some 250000, tenure_months := some 36,
        interest_rate := some 11, credit_score := some 720,
        pre_approved_limit := some 300000 }
      ⟨⟨false, none, none, none, none, none, none⟩, 0, false, none⟩).1.conversation_stage =
      .sanction_letter ∧
    (MasterAgent.orchestrate
      { initState "w4" with
        conversation_stage := .underwriting,
        customer_name := some "Ravi", phone_number := some "9000000002",
        loan_amount := some 250000, tenure_months := some 36,
        interest_rate := some 11, credit_score := some 720,
        pre_approved_limit := some 300000 }
      ⟨⟨false, none, none, none, none, none, none⟩, 0, false, none⟩).2.message =
      .sanctionLetterError ∧
    (MasterAgent.orchestrate
      { initState "w4" with
        conversation_stage := .underwriting,
        customer_name := some "Ravi", phone_number := some "9000000002",
        loan_amount := some 250000, tenure_months := some 36,
        interest_rate := some 11, credit_score := some 720,
        pre_approved_limit := some 300000 }
      ⟨⟨false, none, none, none, none, none, none⟩, 0, false, none⟩).1.final_decision =
      some "approved" ∧
    (MasterAgent.orchestrate
      { initState "w4" with
        conversation_stage := .underwriting,
        customer_name := some "Ravi", phone_number := some "9000000002",
        loan_amount := some 250000, tenure_months := some 36,
        interest_rate := some 11, credit_score := some 720,
        pre_approved_limit := some 300000 }
      ⟨⟨false, none, none, none, none, none, none⟩, 0, false, none⟩).1.underwriting_status =
      .approved :=
  sanction_failure_keeps_approval _ _ rfl
    (by norm_num [UnderwritingAgent.evaluate, truthyQ, truthyI, initState,
      UnderwritingAgent.MIN_CREDIT_SCORE]) rfl

/-- C9: in every reachable session state, a single inbound message either
leaves `final_decision` unchanged or writes it for the first time (from
null) to approved/rejected; and once `final_decision` is non-null, no
sequence of further messages ever changes it. -/
theorem final_decision_write_once (s : LoanApplicationState)
    (hs : MasterAgent.Reachable s) :
    (∀ (m : String) (o : Oracle),
      (MasterAgent.processState s m o).1.final_decision = s.final_decision ∨
      (s.final_decision = none ∧
        ((MasterAgent.processState s m o).1.final_decision = some "approved" ∨
         (MasterAgent.processState s m o).1.final_decision = some "rejected"))) ∧
    (∀ msgs : List (String × Oracle), s.final_decision ≠ none →
      (MasterAgent.runMessages s msgs).final_decision = s.final_decision) := by
  have hinv := MasterAgent.Reachable_fdInv s hs
  exact ⟨fun m o => ((MasterAgent.processState_shape s m o).2 hinv).2,
         fun msgs hne => MasterAgent.runMessages_fd_frozen msgs s hinv hne⟩

theorem final_decision_write_once_witness :
    (MasterAgent.processState (initState "w9") "hello"
        ⟨⟨false, none, none, none, none, none, none⟩, 0, true, none⟩).1.final_decision =
      (initState "w9").final_decision ∨
    ((initState "w9").final_decision = none ∧
      ((MasterAgent.processState (initState "w9") "hello"
          ⟨⟨false, none, none, none, none, none, none⟩, 0, true, none⟩).1.final_decision =
        some "approved" ∨
       (MasterAgent.processState (initState "w9") "hello"
          ⟨⟨false, none, none, none, none, none, none⟩, 0, true, none⟩).1.final_decision =
        some "rejected")) :=
  (final_decision_write_once (initState "w9") ⟨"w9", [], rfl⟩).1 "hello"
    ⟨⟨false, none, none, none, none, none, none⟩, 0, true, none⟩

/-- C10: a `process_message` call with an unknown session id raises no
error: it silently creates a brand-new session (stage greeting, all
collected fields null) under the freshly generated id, processes the
message against it, and the returned `session_id` is the new id, which
differs from the id the caller supplied. -/
theorem unknown_session_creates_new (store : List (String × LoanApplicationState))
    (sid fresh msg : String) (o : Oracle)
    (h1 : MasterAgent.lookupStore store sid = none) (h2 : fresh ≠ sid) :
    (MasterAgent.process_message store sid fresh msg o).1.session_id = fresh ∧
    (MasterAgent.process_message store sid fresh msg o).1.session_id ≠ sid ∧
    (initState fresh).conversation_stage = .greeting ∧
    (initState fresh).customer_name = none ∧
    (initState fresh).phone_number = none ∧
    (initState fresh).loan_amount = none ∧
    (initState fresh).tenure_months = none ∧
    (initState fresh).interest_rate = none ∧
    (initState fresh).salary = none ∧
    (initState fresh).final_decision = none ∧
    (MasterAgent.process_message store sid fresh msg o).1 =
      (MasterAgent.process_message [] fresh fresh msg o).1 := by
  have h0 : MasterAgent.lookupStore [] fresh = none := rfl
  have hsid := (MasterAgent.processState_shape (initState fresh) msg o).1
  unfold MasterAgent.process_message
  rw [h1, h0]
  dsimp only
  refine ⟨hsid, ?_, rfl, rfl, rfl, rfl, rfl, rfl, rfl, rfl, rfl⟩
  rw [hsid]
  exact h2

theorem unknown_session_creates_new_witness :
    (MasterAgent.process_message [] "old-id" "fresh-id" "hi"
        ⟨⟨false, none, none, none, none, none, none⟩, 0, true, none⟩).1.session_id =
      "fresh-id" ∧
    (MasterAgent.process_message [] "old-id" "fresh-id" "hi"
        ⟨⟨false, none, none, none, none, none, none⟩, 0, true, none⟩).1.session_id ≠
      "old-id" ∧
    (initState "fresh-id").conversation_stage = .greeting ∧
    (initState "fresh-id").customer_name = none ∧
    (initState "fresh-id").phone_number = none ∧
    (initState "fresh-id").loan_amount = none ∧
    (initState "fresh-id").tenure_months = none ∧
    (initState "fresh-id").interest_rate = none ∧
    (initState "fresh-id").salary = none ∧
    (initState "fresh-id").final_decision = none ∧
    (MasterAgent.process_message [] "old-id" "fresh-id" "hi"
        ⟨⟨false, none, none, none, none, none, none⟩, 0, true, none⟩).1 =
      (MasterAgent.process_message [] "fresh-id" "fresh-id" "hi"
        ⟨⟨false, none, none, none, none, none, none⟩, 0, true, none⟩).1 :=
  unknown_session_creates_new [] "old-id" "fresh-id" "hi"
    ⟨⟨false, none, none, none, none, none, none⟩, 0, true, none⟩ rfl (by decide)
